import Mathlib

/-!
Shallow embedding of the residential energy estimation engine
(`src/services/energy_service.py` together with the data classes it uses from
`src/models.py`).

Python `float` values are modelled as exact rationals (`ℚ`), Python `int` as
`ℤ`.  Python's `round(x, n)` (round half to even) is modelled by `pyRound`.
Python dictionary indexing is modelled by association-list lookup returning
`Option`; float division, which raises `ZeroDivisionError` on a zero
denominator, is modelled by `pyDivide`.  `EnergyService.estimate` therefore
returns `Option EnergyEstimateResult`, with `none` standing for a raised
exception.
-/

/-- Round half to even on the integers, the tie-breaking rule of Python's
built-in `round`. -/
def roundHalfEven (x : ℚ) : ℤ :=
  if x - ⌊x⌋ < 1/2 then ⌊x⌋
  else if 1/2 < x - ⌊x⌋ then ⌊x⌋ + 1
  else if ⌊x⌋ % 2 = 0 then ⌊x⌋ else ⌊x⌋ + 1

/-- Python's `round(x, ndigits)` on exact rationals. -/
def pyRound (ndigits : ℕ) (x : ℚ) : ℚ :=
  (roundHalfEven (x * 10 ^ ndigits) : ℚ) / 10 ^ ndigits

/-- Python float division: raises (here: `none`) on a zero denominator. -/
def pyDivide (a b : ℚ) : Option ℚ :=
  if b = 0 then none else some (a / b)

/-- `EfficiencyLevel` enum from `src/models.py`. -/
inductive EfficiencyLevel
  | EFFICIENT
  | STANDARD
  | POOR
deriving DecidableEq, Repr

/-- `SolarPotential` pydantic model from `src/models.py`. -/
structure SolarPotential where
  max_panels : ℤ := 0
  annual_production_kwh : ℚ := 0
  offset_pct : ℚ := 0
  estimated_savings_annual : ℚ := 0
  sunshine_hours_per_year : ℚ := 0
  roof_area_sqft : ℚ := 0
deriving DecidableEq, Repr

/-- `MonthlyEnergy` pydantic model from `src/models.py`. -/
structure MonthlyEnergy where
  month : String
  kwh : ℚ
  cost : ℚ
  primary_load : String
deriving DecidableEq, Repr

/-- `EnergyAssumptions` pydantic model from `src/models.py`. -/
structure EnergyAssumptions where
  climate_zone : String
  cdd : ℤ
  hdd : ℤ
  rate_per_kwh : ℚ
  efficiency_level : EfficiencyLevel
  home_sqft : ℤ
  cooling_sqft : ℤ
deriving DecidableEq, Repr

/-- `EnergyEstimateResult` pydantic model from `src/models.py`. -/
structure EnergyEstimateResult where
  annual_total_kwh : ℚ := 0
  annual_total_cost : ℚ := 0
  annual_cooling_kwh : ℚ := 0
  annual_heating_kwh : ℚ := 0
  annual_base_kwh : ℚ := 0
  monthly : List MonthlyEnergy := []
  solar_potential : Option SolarPotential := none
  assumptions : Option EnergyAssumptions := none
deriving DecidableEq, Repr

/-- Monthly CDD distribution factors (`MONTHLY_CDD_FACTORS` dict, in
insertion order). -/
def MONTHLY_CDD_FACTORS : List (String × ℚ) :=
  [("January", 0.02), ("February", 0.03), ("March", 0.05), ("April", 0.08),
   ("May", 0.12), ("June", 0.16), ("July", 0.18), ("August", 0.17),
   ("September", 0.12), ("October", 0.05), ("November", 0.02), ("December", 0.01)]

/-- Monthly HDD distribution factors (`MONTHLY_HDD_FACTORS` dict). -/
def MONTHLY_HDD_FACTORS : List (String × ℚ) :=
  [("January", 0.25), ("February", 0.20), ("March", 0.12), ("April", 0.05),
   ("May", 0.01), ("June", 0.00), ("July", 0.00), ("August", 0.00),
   ("September", 0.00), ("October", 0.02), ("November", 0.10), ("December", 0.25)]

/-- `MONTH_NAMES = list(MONTHLY_CDD_FACTORS.keys())`. -/
def MONTH_NAMES : List String := MONTHLY_CDD_FACTORS.map Prod.fst

/-- One entry of the `CLIMATE_ZONES` dict. -/
structure ClimateZone where
  cdd : ℤ
  hdd : ℤ
  rate : ℚ
  description : String
deriving DecidableEq, Repr

def zone1A : ClimateZone := ⟨4000, 200, 0.14, "Hot-Humid (South FL)"⟩
def zone2A : ClimateZone := ⟨2800, 1200, 0.13, "Hot-Humid (Central/North FL)"⟩
def zone3A : ClimateZone := ⟨2000, 2000, 0.12, "Warm-Humid (Panhandle)"⟩

/-- `CLIMATE_ZONES` dict from the source. -/
def CLIMATE_ZONES : List (String × ClimateZone) :=
  [("1A", zone1A), ("2A", zone2A), ("3A", zone3A)]

/-- One entry of the `EFFICIENCY_FACTORS` dict. -/
structure EfficiencyFactors where
  cooling : ℚ
  heating : ℚ
  base : ℚ
deriving DecidableEq, Repr

/-- `EFFICIENCY_FACTORS` dict, keyed by the (closed) `EfficiencyLevel` enum. -/
def EFFICIENCY_FACTORS : EfficiencyLevel → EfficiencyFactors
  | .EFFICIENT => ⟨0.35, 0.15, 3.0⟩
  | .STANDARD => ⟨0.50, 0.25, 3.5⟩
  | .POOR => ⟨0.70, 0.40, 4.5⟩

/-- `get_climate_zone(lat)` from the source. -/
def get_climate_zone (lat : ℚ) : String :=
  if lat < 26.5 then "1A"
  else if lat < 30.5 then "2A"
  else "3A"

/-- The raw (pre-rounding) total of one month inside the monthly loop of
`EnergyService.estimate`: `base_kwh / 12 + cooling_kwh * cdd_factor +
heating_kwh * hdd_factor`. -/
def month_total (base_kwh cooling_kwh heating_kwh cddFactor hddFactor : ℚ) : ℚ :=
  base_kwh / 12 + cooling_kwh * cddFactor + heating_kwh * hddFactor

/-- The body of the monthly loop of `EnergyService.estimate` (lines 106-125):
builds the `MonthlyEnergy` row for one month, given that month's CDD and HDD
distribution factors. -/
def monthRow (base_kwh cooling_kwh heating_kwh rate : ℚ) (month : String)
    (cddFactor hddFactor : ℚ) : MonthlyEnergy :=
  let month_base := base_kwh / 12
  let month_cooling := cooling_kwh * cddFactor
  let month_heating := heating_kwh * hddFactor
  let mtotal := month_total base_kwh cooling_kwh heating_kwh cddFactor hddFactor
  let primary : String :=
    if month_cooling > month_heating ∧ month_cooling > month_base then "cooling"
    else if month_heating > month_cooling ∧ month_heating > month_base then "heating"
    else "base"
  { month := month
    kwh := pyRound 1 mtotal
    cost := pyRound 2 (mtotal * rate)
    primary_load := primary }

/-- The solar-offset step of `EnergyService.estimate` (lines 127-131).  When a
solar object with positive production is present, the code divides by
`total_annual`, which is Python float division and raises on a zero
denominator (hence `pyDivide`).  Otherwise the solar object is left exactly as
it was passed in. -/
def solarStep (solar_potential : Option SolarPotential) (total_annual : ℚ) :
    Option (Option SolarPotential) :=
  match solar_potential with
  | some sp =>
    if sp.annual_production_kwh > 0 then do
      let q ← pyDivide sp.annual_production_kwh total_annual
      pure (some { sp with offset_pct := pyRound 1 (q * 100) })
    else pure (some sp)
  | none => pure none

namespace EnergyService

/-- `EnergyService.estimate` from the source.  `none` models a raised
exception (a failed dict lookup or a float division by zero). -/
def estimate (home_sqft : ℤ) (cooling_sqft : Option ℤ) (lat : ℚ)
    (efficiency : EfficiencyLevel) (solar_potential : Option SolarPotential) :
    Option EnergyEstimateResult := do
  let cooling_sqft : ℤ := cooling_sqft.getD home_sqft
  let zone_id := get_climate_zone lat
  let zone ← CLIMATE_ZONES.lookup zone_id
  let cdd := zone.cdd
  let hdd := zone.hdd
  let rate := zone.rate
  let factors := EFFICIENCY_FACTORS efficiency
  let base_kwh : ℚ := (home_sqft : ℚ) * factors.base
  let cooling_kwh : ℚ := (cooling_sqft : ℚ) * (cdd : ℚ) * factors.cooling / 1000
  let heating_kwh : ℚ := (home_sqft : ℚ) * (hdd : ℚ) * factors.heating / 1000
  let total_annual : ℚ := base_kwh + cooling_kwh + heating_kwh
  let monthly ← MONTH_NAMES.mapM (fun month => do
    let cddFactor ← MONTHLY_CDD_FACTORS.lookup month
    let hddFactor ← MONTHLY_HDD_FACTORS.lookup month
    pure (monthRow base_kwh cooling_kwh heating_kwh rate month cddFactor hddFactor))
  let solarOut ← solarStep solar_potential total_annual
  let assumptions : EnergyAssumptions :=
    { climate_zone := zone_id
      cdd := cdd
      hdd := hdd
      rate_per_kwh := rate
      efficiency_level := efficiency
      home_sqft := home_sqft
      cooling_sqft := cooling_sqft }
  pure
    { annual_total_kwh := pyRound 1 total_annual
      annual_total_cost := pyRound 2 (total_annual * rate)
      annual_cooling_kwh := pyRound 1 cooling_kwh
      annual_heating_kwh := pyRound 1 heating_kwh
      annual_base_kwh := pyRound 1 base_kwh
      monthly := monthly
      solar_potential := solarOut
      assumptions := some assumptions }

end EnergyService

/-! ## Derived closed forms

The following definitions restate the intermediate values of
`EnergyService.estimate` as standalone functions of its arguments, so that
theorems can speak about the unrounded annual loads.  Each mirrors one line of
the source. -/

/-- The zone record selected for a latitude: `CLIMATE_ZONES[get_climate_zone(lat)]`. -/
def zoneFor (lat : ℚ) : ClimateZone :=
  if lat < 26.5 then zone1A else if lat < 30.5 then zone2A else zone3A

/-- Unrounded `base_kwh = home_sqft * factors["base"]`. -/
def baseKwh (home : ℤ) (eff : EfficiencyLevel) : ℚ :=
  (home : ℚ) * (EFFICIENCY_FACTORS eff).base

/-- Unrounded `cooling_kwh = cooling_sqft * cdd * factors["cooling"] / 1000`. -/
def coolingKwh (c : ℤ) (lat : ℚ) (eff : EfficiencyLevel) : ℚ :=
  (c : ℚ) * ((zoneFor lat).cdd : ℚ) * (EFFICIENCY_FACTORS eff).cooling / 1000

/-- Unrounded `heating_kwh = home_sqft * hdd * factors["heating"] / 1000`. -/
def heatingKwh (home : ℤ) (lat : ℚ) (eff : EfficiencyLevel) : ℚ :=
  (home : ℚ) * ((zoneFor lat).hdd : ℚ) * (EFFICIENCY_FACTORS eff).heating / 1000

/-- Unrounded `total_annual = base_kwh + cooling_kwh + heating_kwh`. -/
def totalAnnual (home c : ℤ) (lat : ℚ) (eff : EfficiencyLevel) : ℚ :=
  baseKwh home eff + coolingKwh c lat eff + heatingKwh home lat eff

/-- The 12 monthly rows produced by the loop, with each month's CDD/HDD
distribution factors substituted from the two tables. -/
def monthlyRows (b c h r : ℚ) : List MonthlyEnergy :=
  [monthRow b c h r "January" 0.02 0.25, monthRow b c h r "February" 0.03 0.20,
   monthRow b c h r "March" 0.05 0.12, monthRow b c h r "April" 0.08 0.05,
   monthRow b c h r "May" 0.12 0.01, monthRow b c h r "June" 0.16 0.00,
   monthRow b c h r "July" 0.18 0.00, monthRow b c h r "August" 0.17 0.00,
   monthRow b c h r "September" 0.12 0.00, monthRow b c h r "October" 0.05 0.02,
   monthRow b c h r "November" 0.02 0.10, monthRow b c h r "December" 0.01 0.25]

/-- The sum of the 12 unrounded per-month totals. -/
def rawMonthlySum (b c h : ℚ) : ℚ :=
  ((MONTHLY_CDD_FACTORS.zip MONTHLY_HDD_FACTORS).map
    (fun p => month_total b c h p.1.2 p.2.2)).sum

/-- The result record assembled by `estimate`, as a function of the inputs and
of the outcome of the solar step. -/
def resultWith (home c : ℤ) (lat : ℚ) (eff : EfficiencyLevel)
    (so : Option SolarPotential) : EnergyEstimateResult :=
  { annual_total_kwh := pyRound 1 (totalAnnual home c lat eff)
    annual_total_cost := pyRound 2 (totalAnnual home c lat eff * (zoneFor lat).rate)
    annual_cooling_kwh := pyRound 1 (coolingKwh c lat eff)
    annual_heating_kwh := pyRound 1 (heatingKwh home lat eff)
    annual_base_kwh := pyRound 1 (baseKwh home eff)
    monthly := monthlyRows (baseKwh home eff) (coolingKwh c lat eff)
      (heatingKwh home lat eff) (zoneFor lat).rate
    solar_potential := so
    assumptions := some
      { climate_zone := get_climate_zone lat
        cdd := (zoneFor lat).cdd
        hdd := (zoneFor lat).hdd
        rate_per_kwh := (zoneFor lat).rate
        efficiency_level := eff
        home_sqft := home
        cooling_sqft := c } }

/-- Every field of an `EnergyEstimateResult` except the solar block. -/
def resultSignature (r : EnergyEstimateResult) :
    ℚ × ℚ × ℚ × ℚ × ℚ × List MonthlyEnergy × Option EnergyAssumptions :=
  (r.annual_total_kwh, r.annual_total_cost, r.annual_cooling_kwh,
   r.annual_heating_kwh, r.annual_base_kwh, r.monthly, r.assumptions)

/-! ## Basic lemmas -/

theorem lookup_zone (lat : ℚ) :
    CLIMATE_ZONES.lookup (get_climate_zone lat) = some (zoneFor lat) := by
  unfold get_climate_zone zoneFor
  split_ifs <;> rfl

theorem monthly_mapM (b c h r : ℚ) :
    MONTH_NAMES.mapM (fun month => do
      let cddFactor ← MONTHLY_CDD_FACTORS.lookup month
      let hddFactor ← MONTHLY_HDD_FACTORS.lookup month
      pure (monthRow b c h r month cddFactor hddFactor)) = some (monthlyRows b c h r) := by
  rfl

/-- Closed form of `EnergyService.estimate` when the cooled area is supplied:
only the solar step can fail. -/
theorem estimate_eq (home c : ℤ) (lat : ℚ) (eff : EfficiencyLevel)
    (sol : Option SolarPotential) :
    EnergyService.estimate home (some c) lat eff sol =
      (solarStep sol (totalAnnual home c lat eff)).bind
        (fun so => some (resultWith home c lat eff so)) := by
  simp only [EnergyService.estimate, Option.getD_some, lookup_zone, Option.some_bind,
    monthly_mapM]
  rfl

/-- A missing cooled area defaults to the floor area (line 79-80). -/
theorem estimate_default (home : ℤ) (lat : ℚ) (eff : EfficiencyLevel)
    (sol : Option SolarPotential) :
    EnergyService.estimate home none lat eff sol =
      EnergyService.estimate home (some home) lat eff sol := rfl

/-- With no solar object the estimate always succeeds. -/
theorem estimate_none_eq (home c : ℤ) (lat : ℚ) (eff : EfficiencyLevel) :
    EnergyService.estimate home (some c) lat eff none =
      some (resultWith home c lat eff none) := by
  rw [estimate_eq]
  rfl

theorem roundHalfEven_bounds (x : ℚ) :
    x - 1/2 ≤ (roundHalfEven x : ℚ) ∧ (roundHalfEven x : ℚ) ≤ x + 1/2 := by
  have h1 : (⌊x⌋ : ℚ) ≤ x := Int.floor_le x
  have h2 : x < ⌊x⌋ + 1 := Int.lt_floor_add_one x
  unfold roundHalfEven
  split_ifs <;> constructor <;> push_cast <;> linarith

theorem pyRound_bounds (d : ℕ) (x : ℚ) :
    x - 1 / (2 * 10 ^ d) ≤ pyRound d x ∧ pyRound d x ≤ x + 1 / (2 * 10 ^ d) := by
  have hp : (0 : ℚ) < 10 ^ d := by positivity
  have h := roundHalfEven_bounds (x * 10 ^ d)
  unfold pyRound
  constructor
  · rw [le_div_iff₀ hp]
    have he : (x - 1 / (2 * 10 ^ d)) * 10 ^ d = x * 10 ^ d - 1/2 := by
      field_simp
      ring
    rw [he]
    exact h.1
  · rw [div_le_iff₀ hp]
    have he : (x + 1 / (2 * 10 ^ d)) * 10 ^ d = x * 10 ^ d + 1/2 := by
      field_simp
      ring
    rw [he]
    exact h.2

theorem pyRound_lt_pyRound (x y : ℚ) (h : x + 1/10 < y) : pyRound 1 x < pyRound 1 y := by
  have hx := (pyRound_bounds 1 x).2
  have hy := (pyRound_bounds 1 y).1
  norm_num at hx hy
  linarith

theorem pyRound_zero (d : ℕ) : pyRound d 0 = 0 := by
  unfold pyRound roundHalfEven
  norm_num

/-! ## Claims -/

/-- C3: Of the two static monthly-weight tables, only the HDD table sums
to 1.0.  The 12 CDD fractions sum to 1.01, a genuine 1% excess, not a
rounding artifact: the values are exact two-decimal constants.  This
contradicts both the claim and the source comment describing the values as
"fraction of annual total per month". -/
theorem monthly_tables_sum :
    (MONTHLY_CDD_FACTORS.map Prod.snd).sum = 101/100 ∧
    (MONTHLY_CDD_FACTORS.map Prod.snd).sum ≠ 1 ∧
    (MONTHLY_HDD_FACTORS.map Prod.snd).sum = 1 := by
  refine ⟨?_, ?_, ?_⟩ <;> norm_num [MONTHLY_CDD_FACTORS, MONTHLY_HDD_FACTORS]

/-- C5: `get_climate_zone` is total and always yields one of the three zone
codes (extreme latitudes fall into the first or last bracket); 25.7 resolves
to the south-Florida zone `"1A"`, 28.5 to the central zone `"2A"`, 30.5 to the
north/panhandle zone `"3A"`; and along increasing latitude the selected zone's
cooling-degree-days never increase while its heating-degree-days never
decrease. -/
theorem climate_zone_resolution :
    (∀ lat : ℚ, get_climate_zone lat = "1A" ∨ get_climate_zone lat = "2A" ∨
      get_climate_zone lat = "3A") ∧
    (∀ lat : ℚ, (CLIMATE_ZONES.lookup (get_climate_zone lat)).isSome = true) ∧
    get_climate_zone 25.7 = "1A" ∧
    get_climate_zone 28.5 = "2A" ∧
    get_climate_zone 30.5 = "3A" ∧
    zone1A.description = "Hot-Humid (South FL)" ∧
    zone2A.description = "Hot-Humid (Central/North FL)" ∧
    zone3A.description = "Warm-Humid (Panhandle)" ∧
    (∀ (lat1 lat2 : ℚ) (z1 z2 : ClimateZone), lat1 ≤ lat2 →
      CLIMATE_ZONES.lookup (get_climate_zone lat1) = some z1 →
      CLIMATE_ZONES.lookup (get_climate_zone lat2) = some z2 →
      z2.cdd ≤ z1.cdd ∧ z1.hdd ≤ z2.hdd) := by
  refine ⟨?_, ?_, ?_, ?_, ?_, rfl, rfl, rfl, ?_⟩
  · intro lat
    unfold get_climate_zone
    split_ifs <;> simp
  · intro lat
    rw [lookup_zone]
    rfl
  · norm_num [get_climate_zone]
  · norm_num [get_climate_zone]
  · norm_num [get_climate_zone]
  · intro lat1 lat2 z1 z2 hle h1 h2
    rw [lookup_zone] at h1 h2
    injection h1 with h1
    injection h2 with h2
    subst h1
    subst h2
    unfold zoneFor
    split_ifs <;>
      first
        | (exfalso; linarith)
        | (constructor <;> norm_num [zone1A, zone2A, zone3A])

/-- Witness for C5's monotonicity part at latitudes 25.7 and 30.5. -/
theorem climate_zone_resolution_witness :
    zone3A.cdd ≤ zone1A.cdd ∧ zone1A.hdd ≤ zone3A.hdd :=
  climate_zone_resolution.2.2.2.2.2.2.2.2 25.7 30.5 zone1A zone3A (by norm_num)
    (by rw [lookup_zone]; norm_num [zoneFor])
    (by rw [lookup_zone]; norm_num [zoneFor])

/-- C2: a missing cooled area defaults to the floor area, and the three annual
load fields of the result are precisely the rounded values of
`floor_area * base_factor`, `cooled_area * cdd * cooling_factor / 1000` and
`floor_area * hdd * heating_factor / 1000`, with `cdd`/`hdd` taken from the
zone resolved for the latitude. -/
theorem annual_load_formulas (home c : ℤ) (lat : ℚ) (eff : EfficiencyLevel)
    (z : ClimateZone) (hz : CLIMATE_ZONES.lookup (get_climate_zone lat) = some z) :
    EnergyService.estimate home none lat eff none =
      EnergyService.estimate home (some home) lat eff none ∧
    (EnergyService.estimate home (some c) lat eff none).map
        (fun r => r.annual_base_kwh) =
      some (pyRound 1 ((home : ℚ) * (EFFICIENCY_FACTORS eff).base)) ∧
    (EnergyService.estimate home (some c) lat eff none).map
        (fun r => r.annual_cooling_kwh) =
      some (pyRound 1 ((c : ℚ) * (z.cdd : ℚ) * (EFFICIENCY_FACTORS eff).cooling / 1000)) ∧
    (EnergyService.estimate home (some c) lat eff none).map
        (fun r => r.annual_heating_kwh) =
      some (pyRound 1 ((home : ℚ) * (z.hdd : ℚ) * (EFFICIENCY_FACTORS eff).heating / 1000)) := by
  rw [lookup_zone] at hz
  injection hz with hz
  subst hz
  refine ⟨estimate_default home lat eff none, ?_, ?_, ?_⟩ <;>
    rw [estimate_none_eq] <;> rfl

/-- Witness for C2 at floor area 1800, cooled area 1200, latitude 28.5,
standard efficiency: the lookup hypothesis holds with the central zone. -/
theorem annual_load_formulas_witness :
    EnergyService.estimate 1800 none 28.5 .STANDARD none =
      EnergyService.estimate 1800 (some 1800) 28.5 .STANDARD none ∧
    (EnergyService.estimate 1800 (some 1200) 28.5 .STANDARD none).map
        (fun r => r.annual_base_kwh) =
      some (pyRound 1 ((1800 : ℚ) * (EFFICIENCY_FACTORS .STANDARD).base)) ∧
    (EnergyService.estimate 1800 (some 1200) 28.5 .STANDARD none).map
        (fun r => r.annual_cooling_kwh) =
      some (pyRound 1 ((1200 : ℚ) * (zone2A.cdd : ℚ) *
        (EFFICIENCY_FACTORS .STANDARD).cooling / 1000)) ∧
    (EnergyService.estimate 1800 (some 1200) 28.5 .STANDARD none).map
        (fun r => r.annual_heating_kwh) =
      some (pyRound 1 ((1800 : ℚ) * (zone2A.hdd : ℚ) *
        (EFFICIENCY_FACTORS .STANDARD).heating / 1000)) :=
  annual_load_formulas 1800 1200 28.5 .STANDARD zone2A
    (by rw [lookup_zone]; norm_num [zoneFor])

/-- C4: in every estimate result the monthly rows are exactly the rows built
by `monthRow` from the annual loads and the two weight tables, and a row's
dominant-load label is `"cooling"` precisely when its cooling component
strictly exceeds both its heating and base components, `"heating"` precisely
when its heating component strictly exceeds both others, and `"base"` in every
remaining case (so all ties fall to `"base"`, as does any month whose cooling
and heating components are both below the per-month base share). -/
theorem primary_load_classification :
    (∀ home c : ℤ, ∀ lat : ℚ, ∀ eff : EfficiencyLevel,
      (EnergyService.estimate home (some c) lat eff none).map (fun r => r.monthly) =
        some (monthlyRows (baseKwh home eff) (coolingKwh c lat eff)
          (heatingKwh home lat eff) (zoneFor lat).rate)) ∧
    (∀ b ck hk rate cf hf : ℚ, ∀ month : String,
      ((monthRow b ck hk rate month cf hf).primary_load = "cooling" ↔
        ck * cf > hk * hf ∧ ck * cf > b / 12) ∧
      ((monthRow b ck hk rate month cf hf).primary_load = "heating" ↔
        hk * hf > ck * cf ∧ hk * hf > b / 12) ∧
      ((monthRow b ck hk rate month cf hf).primary_load = "base" ↔
        (¬(ck * cf > hk * hf ∧ ck * cf > b / 12) ∧
         ¬(hk * hf > ck * cf ∧ hk * hf > b / 12)))) := by
  constructor
  · intro home c lat eff
    rw [estimate_none_eq]
    rfl
  · intro b ck hk rate cf hf month
    by_cases h1 : ck * cf > hk * hf ∧ ck * cf > b / 12 <;>
      by_cases h2 : hk * hf > ck * cf ∧ hk * hf > b / 12
    · exact absurd h2.1 (not_lt.mpr h1.1.le)
    all_goals refine ⟨?_, ?_, ?_⟩ <;> simp [monthRow, h1, h2]

/-- C6 counterexample: with floor area 0 and cooled area 0 (latitude 28.5) all
three efficiency tiers return the same annual total, 0.0 kWh, so the totals
are not strictly increasing across tiers. -/
theorem tier_monotonicity_counterexample :
    (EnergyService.estimate 0 (some 0) 28.5 .EFFICIENT none).map
        (fun r => r.annual_total_kwh) = some 0 ∧
    (EnergyService.estimate 0 (some 0) 28.5 .STANDARD none).map
        (fun r => r.annual_total_kwh) = some 0 ∧
    (EnergyService.estimate 0 (some 0) 28.5 .POOR none).map
        (fun r => r.annual_total_kwh) = some 0 := by
  refine ⟨?_, ?_, ?_⟩ <;>
    · rw [estimate_none_eq]
      show some (pyRound 1 (totalAnnual 0 0 28.5 _)) = some 0
      rw [show totalAnnual 0 0 28.5 _ = 0 by
        norm_num [totalAnnual, baseKwh, coolingKwh, heatingKwh]]
      rw [pyRound_zero]

/-- C6 (amended): for every *positive* floor area and *nonnegative* cooled
area, the annual totals returned by estimate are strictly increasing from the
EFFICIENT tier to STANDARD to POOR, at every latitude.  (As stated the claim
fails for degenerate areas, e.g. floor = cooled = 0, where all tiers give 0.) -/
theorem tier_monotonicity_amended (home c : ℤ) (lat : ℚ)
    (hhome : 0 < home) (hc : 0 ≤ c)
    (rE rS rP : EnergyEstimateResult)
    (hE : EnergyService.estimate home (some c) lat .EFFICIENT none = some rE)
    (hS : EnergyService.estimate home (some c) lat .STANDARD none = some rS)
    (hP : EnergyService.estimate home (some c) lat .POOR none = some rP) :
    rE.annual_total_kwh < rS.annual_total_kwh ∧
    rS.annual_total_kwh < rP.annual_total_kwh := by
  rw [estimate_none_eq] at hE hS hP
  injection hE with hE
  injection hS with hS
  injection hP with hP
  subst hE
  subst hS
  subst hP
  have hhq : (1 : ℚ) ≤ (home : ℚ) := by exact_mod_cast hhome
  have hcq : (0 : ℚ) ≤ (c : ℚ) := by exact_mod_cast hc
  constructor <;>
    · apply pyRound_lt_pyRound
      unfold totalAnnual baseKwh coolingKwh heatingKwh zoneFor
      split_ifs <;>
        norm_num [zone1A, zone2A, zone3A, EFFICIENCY_FACTORS] <;> linarith

/-- Witness for the amended C6 at floor 1800, cooled 1800, latitude 28.5. -/
theorem tier_monotonicity_amended_witness :
    (resultWith 1800 1800 28.5 .EFFICIENT none).annual_total_kwh <
      (resultWith 1800 1800 28.5 .STANDARD none).annual_total_kwh ∧
    (resultWith 1800 1800 28.5 .STANDARD none).annual_total_kwh <
      (resultWith 1800 1800 28.5 .POOR none).annual_total_kwh :=
  tier_monotonicity_amended 1800 1800 28.5 (by norm_num) (by norm_num) _ _ _
    (estimate_none_eq 1800 1800 28.5 .EFFICIENT)
    (estimate_none_eq 1800 1800 28.5 .STANDARD)
    (estimate_none_eq 1800 1800 28.5 .POOR)

/-- A concrete solar object with positive annual production, for
counterexamples and witnesses. -/
def solarHundred : SolarPotential := { annual_production_kwh := 100 }

/-- C1 counterexample: with floor area 0 and cooled area 0 the unrounded
annual total is exactly 0, so the call with a positive-production solar
object divides by zero and raises (returns `none`), while the identical call
without a solar object succeeds with annual total 0.0 — the two calls do not
return the same annual total. -/
theorem solar_frame_counterexample :
    solarHundred.annual_production_kwh > 0 ∧
    EnergyService.estimate 0 (some 0) 28.5 .STANDARD (some solarHundred) = none ∧
    EnergyService.estimate 0 (some 0) 28.5 .STANDARD none =
      some (resultWith 0 0 28.5 .STANDARD none) := by
  refine ⟨by norm_num [solarHundred], ?_, estimate_none_eq 0 0 28.5 .STANDARD⟩
  rw [estimate_eq]
  rw [show totalAnnual 0 0 28.5 .STANDARD = 0 by
    norm_num [totalAnnual, baseKwh, coolingKwh, heatingKwh]]
  norm_num [solarStep, solarHundred, pyDivide]

/-- C1 (amended): whenever the unrounded annual total is nonzero (in
particular for any positive floor area and nonnegative cooled area), a call
with a positive-production solar object succeeds and agrees with the identical
no-solar call on every field except the solar block itself: same annual
totals, costs, loads, monthly breakdown and assumptions.  (As stated the claim
fails only at inputs whose annual total is exactly zero, where the with-solar
call divides by zero and raises.) -/
theorem solar_frame_amended (home c : ℤ) (lat : ℚ) (eff : EfficiencyLevel)
    (sp : SolarPotential) (hp : 0 < sp.annual_production_kwh)
    (hT : totalAnnual home c lat eff ≠ 0) :
    (EnergyService.estimate home (some c) lat eff (some sp)).isSome = true ∧
    (EnergyService.estimate home (some c) lat eff (some sp)).map resultSignature =
      (EnergyService.estimate home (some c) lat eff none).map resultSignature := by
  rw [estimate_eq, estimate_none_eq]
  have hstep : solarStep (some sp) (totalAnnual home c lat eff) =
      some (some { sp with
        offset_pct := pyRound 1 (sp.annual_production_kwh / totalAnnual home c lat eff * 100) }) := by
    simp [solarStep, hp, pyDivide, hT]
  rw [hstep]
  exact ⟨rfl, rfl⟩

/-- Witness for the amended C1 at floor 1800, cooled 1800, latitude 28.5,
standard efficiency, 100 kWh/yr of solar production. -/
theorem solar_frame_amended_witness :
    (EnergyService.estimate 1800 (some 1800) 28.5 .STANDARD (some solarHundred)).isSome
        = true ∧
    (EnergyService.estimate 1800 (some 1800) 28.5 .STANDARD
        (some solarHundred)).map resultSignature =
      (EnergyService.estimate 1800 (some 1800) 28.5 .STANDARD none).map resultSignature :=
  solar_frame_amended 1800 1800 28.5 .STANDARD solarHundred
    (by norm_num [solarHundred])
    (by norm_num [totalAnnual, baseKwh, coolingKwh, heatingKwh, zoneFor, zone2A,
      EFFICIENCY_FACTORS])

/-- C7 counterexample: a solar object with positive production is supplied,
but the floor area is 0 (cooled area defaults to 0), so the unrounded annual
total is 0 and the offset computation divides by zero: the call raises
(returns `none`) instead of writing an offset percentage. -/
theorem solar_offset_counterexample :
    solarHundred.annual_production_kwh > 0 ∧
    EnergyService.estimate 0 none 25 .POOR (some solarHundred) = none := by
  refine ⟨by norm_num [solarHundred], ?_⟩
  rw [estimate_default, estimate_eq]
  rw [show totalAnnual 0 0 25 .POOR = 0 by
    norm_num [totalAnnual, baseKwh, coolingKwh, heatingKwh]]
  norm_num [solarStep, solarHundred, pyDivide]

/-- C7 (amended): provided the unrounded annual total is nonzero, supplying a
solar object with positive annual production makes estimate succeed with a
solar block equal to the supplied object except that its offset percentage is
set to `(annual production / unrounded annual total) * 100` rounded to one
decimal; when the supplied object's production is zero or negative the call
succeeds with the object returned untouched; and with no solar object the
call succeeds with an empty solar block.  (As stated the claim fails only
when the annual total is exactly zero and production is positive, where the
code divides by zero and raises.) -/
theorem solar_offset_amended (home c : ℤ) (lat : ℚ) (eff : EfficiencyLevel)
    (sp : SolarPotential) :
    (0 < sp.annual_production_kwh → totalAnnual home c lat eff ≠ 0 →
      (EnergyService.estimate home (some c) lat eff (some sp)).map
          (fun r => r.solar_potential) =
        some (some { sp with
          offset_pct := pyRound 1
            (sp.annual_production_kwh / totalAnnual home c lat eff * 100) })) ∧
    (sp.annual_production_kwh ≤ 0 →
      (EnergyService.estimate home (some c) lat eff (some sp)).map
          (fun r => r.solar_potential) = some (some sp)) ∧
    (EnergyService.estimate home (some c) lat eff none).map
        (fun r => r.solar_potential) = some none := by
  refine ⟨?_, ?_, ?_⟩
  · intro hp hT
    rw [estimate_eq]
    have hstep : solarStep (some sp) (totalAnnual home c lat eff) =
        some (some { sp with
          offset_pct := pyRound 1 (sp.annual_production_kwh / totalAnnual home c lat eff * 100) }) := by
      simp [solarStep, hp, pyDivide, hT]
    rw [hstep]
    rfl
  · intro hp
    rw [estimate_eq]
    have hstep : solarStep (some sp) (totalAnnual home c lat eff) = some (some sp) := by
      simp [solarStep, not_lt.mpr hp]
    rw [hstep]
    rfl
  · rw [estimate_none_eq]
    rfl

/-- Witness for the amended C7: the positive-production branch at floor 1800,
cooled 1800, latitude 28.5, and the nonpositive-production branch with a
default (zero-production) solar object. -/
theorem solar_offset_amended_witness :
    (EnergyService.estimate 1800 (some 1800) 28.5 .STANDARD (some solarHundred)).map
        (fun r => r.solar_potential) =
      some (some { solarHundred with
        offset_pct := pyRound 1
          (solarHundred.annual_production_kwh / totalAnnual 1800 1800 28.5 .STANDARD * 100) }) ∧
    (EnergyService.estimate 1800 (some 1800) 28.5 .STANDARD (some {})).map
        (fun r => r.solar_potential) = some (some {}) :=
  ⟨(solar_offset_amended 1800 1800 28.5 .STANDARD solarHundred).1
      (by norm_num [solarHundred])
      (by norm_num [totalAnnual, baseKwh, coolingKwh, heatingKwh, zoneFor, zone2A,
        EFFICIENCY_FACTORS]),
   (solar_offset_amended 1800 1800 28.5 .STANDARD {}).2.1 (by norm_num)⟩

theorem rawMonthlySum_eq (b ck hk : ℚ) :
    rawMonthlySum b ck hk = b + ck * (101/100) + hk := by
  simp [rawMonthlySum, MONTHLY_CDD_FACTORS, MONTHLY_HDD_FACTORS, month_total]
  ring

theorem zone_cdd_nonneg (lat : ℚ) : (0 : ℚ) ≤ ((zoneFor lat).cdd : ℚ) := by
  unfold zoneFor
  split_ifs <;> norm_num [zone1A, zone2A, zone3A]

theorem zone_hdd_nonneg (lat : ℚ) : (0 : ℚ) ≤ ((zoneFor lat).hdd : ℚ) := by
  unfold zoneFor
  split_ifs <;> norm_num [zone1A, zone2A, zone3A]

theorem eff_cooling_pos (eff : EfficiencyLevel) : 0 < (EFFICIENCY_FACTORS eff).cooling := by
  cases eff <;> norm_num [EFFICIENCY_FACTORS]

theorem eff_heating_pos (eff : EfficiencyLevel) : 0 < (EFFICIENCY_FACTORS eff).heating := by
  cases eff <;> norm_num [EFFICIENCY_FACTORS]

theorem eff_base_pos (eff : EfficiencyLevel) : 0 < (EFFICIENCY_FACTORS eff).base := by
  cases eff <;> norm_num [EFFICIENCY_FACTORS]

theorem tolerance_aux (b ck hk : ℚ) (hb : 0 < b) (hck : 0 ≤ ck) (hhk : 0 ≤ hk) :
    |b + ck * (101/100) + hk - (b + ck + hk)| < 5/100 * (b + ck + hk) := by
  rw [show b + ck * (101/100) + hk - (b + ck + hk) = ck / 100 by ring]
  rw [abs_of_nonneg (by linarith)]
  linarith

/-- C8 (amended): for every positive floor area and *nonnegative* cooled
area, the sum of the 12 unrounded per-month totals differs from the unrounded
annual total by less than 5% of that total (the discrepancy is exactly 1% of
the annual cooling load, coming from the CDD table summing to 1.01); and the
monthly rows of the result are exactly the rows built from those per-month
totals.  (As stated the claim fails for a negative cooled area that cancels
the annual total, see the counterexample.) -/
theorem monthly_sum_tolerance_amended (home c : ℤ) (lat : ℚ)
    (eff : EfficiencyLevel) (hhome : 0 < home) (hc : 0 ≤ c) :
    |rawMonthlySum (baseKwh home eff) (coolingKwh c lat eff) (heatingKwh home lat eff) -
        totalAnnual home c lat eff| < 5/100 * totalAnnual home c lat eff ∧
    (EnergyService.estimate home (some c) lat eff none).map (fun r => r.monthly) =
      some (monthlyRows (baseKwh home eff) (coolingKwh c lat eff)
        (heatingKwh home lat eff) (zoneFor lat).rate) := by
  have hhq : (0 : ℚ) < (home : ℚ) := by exact_mod_cast hhome
  have hcq : (0 : ℚ) ≤ (c : ℚ) := by exact_mod_cast hc
  have hb : 0 < baseKwh home eff := mul_pos hhq (eff_base_pos eff)
  have hck : 0 ≤ coolingKwh c lat eff :=
    div_nonneg (mul_nonneg (mul_nonneg hcq (zone_cdd_nonneg lat))
      (eff_cooling_pos eff).le) (by norm_num)
  have hhk : 0 ≤ heatingKwh home lat eff :=
    div_nonneg (mul_nonneg (mul_nonneg hhq.le (zone_hdd_nonneg lat))
      (eff_heating_pos eff).le) (by norm_num)
  constructor
  · rw [rawMonthlySum_eq]
    exact tolerance_aux _ _ _ hb hck hhk
  · rw [estimate_none_eq]
    rfl

/-- Witness for the amended C8 at floor 1800, cooled 1800, latitude 28.5,
standard efficiency. -/
theorem monthly_sum_tolerance_amended_witness :
    |rawMonthlySum (baseKwh 1800 .STANDARD) (coolingKwh 1800 28.5 .STANDARD)
        (heatingKwh 1800 28.5 .STANDARD) - totalAnnual 1800 1800 28.5 .STANDARD| <
      5/100 * totalAnnual 1800 1800 28.5 .STANDARD ∧
    (EnergyService.estimate 1800 (some 1800) 28.5 .STANDARD none).map
        (fun r => r.monthly) =
      some (monthlyRows (baseKwh 1800 .STANDARD) (coolingKwh 1800 28.5 .STANDARD)
        (heatingKwh 1800 28.5 .STANDARD) (zoneFor 28.5).rate) :=
  monthly_sum_tolerance_amended 1800 1800 28.5 .STANDARD (by norm_num) (by norm_num)

/-- C8 counterexample: floor area 7 (positive) with cooled area −19 at
latitude 28.5, standard tier: the unrounded annual total is exactly 0
(24.5 − 26.6 + 2.1), while the 12 unrounded monthly totals sum to −0.266, so
the difference is not below 5% of the total; the result's monthly rows are
exactly the rows built from these loads. -/
theorem monthly_sum_tolerance_counterexample :
    (0 : ℤ) < 7 ∧
    totalAnnual 7 (-19) 28.5 .STANDARD = 0 ∧
    rawMonthlySum (baseKwh 7 .STANDARD) (coolingKwh (-19) 28.5 .STANDARD)
        (heatingKwh 7 28.5 .STANDARD) - totalAnnual 7 (-19) 28.5 .STANDARD =
      -(266/1000) ∧
    ¬ (|rawMonthlySum (baseKwh 7 .STANDARD) (coolingKwh (-19) 28.5 .STANDARD)
          (heatingKwh 7 28.5 .STANDARD) - totalAnnual 7 (-19) 28.5 .STANDARD| <
        5/100 * |totalAnnual 7 (-19) 28.5 .STANDARD|) ∧
    (EnergyService.estimate 7 (some (-19)) 28.5 .STANDARD none).map
        (fun r => r.monthly) =
      some (monthlyRows (baseKwh 7 .STANDARD) (coolingKwh (-19) 28.5 .STANDARD)
        (heatingKwh 7 28.5 .STANDARD) (zoneFor 28.5).rate) := by
  have hT : totalAnnual 7 (-19) 28.5 .STANDARD = 0 := by
    norm_num [totalAnnual, baseKwh, coolingKwh, heatingKwh, zoneFor, zone2A,
      EFFICIENCY_FACTORS]
  have hS : rawMonthlySum (baseKwh 7 .STANDARD) (coolingKwh (-19) 28.5 .STANDARD)
      (heatingKwh 7 28.5 .STANDARD) - totalAnnual 7 (-19) 28.5 .STANDARD =
      -(266/1000) := by
    rw [rawMonthlySum_eq, hT]
    norm_num [baseKwh, coolingKwh, heatingKwh, zoneFor, zone2A, EFFICIENCY_FACTORS]
  refine ⟨by norm_num, hT, hS, ?_, ?_⟩
  · rw [hS, hT]
    norm_num
  · rw [estimate_none_eq]
    rfl

/-- C9: estimate is deterministic — two calls with identical inputs and no
solar object produce results equal in every field: same annual figures, same
12 monthly rows, same assumptions block.  The embedding is a pure function of
its arguments, so any two successful results of the same call coincide. -/
theorem estimate_deterministic (home : ℤ) (c : Option ℤ) (lat : ℚ)
    (eff : EfficiencyLevel) (r1 r2 : EnergyEstimateResult)
    (h1 : EnergyService.estimate home c lat eff none = some r1)
    (h2 : EnergyService.estimate home c lat eff none = some r2) :
    r1 = r2 ∧ r1.annual_total_kwh = r2.annual_total_kwh ∧
    r1.monthly = r2.monthly ∧ r1.assumptions = r2.assumptions := by
  rw [h1] at h2
  injection h2 with h2
  subst h2
  exact ⟨rfl, rfl, rfl, rfl⟩

/-- Witness for C9 at floor 1800, no explicit cooled area, latitude 28.5. -/
theorem estimate_deterministic_witness :
    resultWith 1800 1800 28.5 .STANDARD none = resultWith 1800 1800 28.5 .STANDARD none ∧
    (resultWith 1800 1800 28.5 .STANDARD none).annual_total_kwh =
      (resultWith 1800 1800 28.5 .STANDARD none).annual_total_kwh ∧
    (resultWith 1800 1800 28.5 .STANDARD none).monthly =
      (resultWith 1800 1800 28.5 .STANDARD none).monthly ∧
    (resultWith 1800 1800 28.5 .STANDARD none).assumptions =
      (resultWith 1800 1800 28.5 .STANDARD none).assumptions :=
  estimate_deterministic 1800 none 28.5 .STANDARD _ _
    ((estimate_default 1800 28.5 .STANDARD none).trans
      (estimate_none_eq 1800 1800 28.5 .STANDARD))
    ((estimate_default 1800 28.5 .STANDARD none).trans
      (estimate_none_eq 1800 1800 28.5 .STANDARD))

/-- C10: when estimate succeeds on a supplied solar object, the solar block of
the result is the supplied object with at most its `offset_pct` field
changed — `max_panels`, `annual_production_kwh`, `estimated_savings_annual`,
`sunshine_hours_per_year`, `roof_area_sqft` are all preserved; with no solar
object supplied, the result's solar block is `None`. -/
theorem solar_object_frame :
    (∀ (home : ℤ) (c : Option ℤ) (lat : ℚ) (eff : EfficiencyLevel)
      (sp : SolarPotential) (r : EnergyEstimateResult),
      EnergyService.estimate home c lat eff (some sp) = some r →
      ∃ sp2, r.solar_potential = some sp2 ∧
        sp2.max_panels = sp.max_panels ∧
        sp2.annual_production_kwh = sp.annual_production_kwh ∧
        sp2.estimated_savings_annual = sp.estimated_savings_annual ∧
        sp2.sunshine_hours_per_year = sp.sunshine_hours_per_year ∧
        sp2.roof_area_sqft = sp.roof_area_sqft) ∧
    (∀ (home : ℤ) (c : Option ℤ) (lat : ℚ) (eff : EfficiencyLevel)
      (r : EnergyEstimateResult),
      EnergyService.estimate home c lat eff none = some r →
      r.solar_potential = none) := by
  constructor
  · intro home c lat eff sp r h
    have hc : EnergyService.estimate home c lat eff (some sp) =
        EnergyService.estimate home (some (c.getD home)) lat eff (some sp) := by
      cases c <;> rfl
    rw [hc, estimate_eq] at h
    by_cases hp : sp.annual_production_kwh > 0
    · by_cases hT : totalAnnual home (c.getD home) lat eff = 0
      · simp [solarStep, hp, pyDivide, hT] at h
      · have hstep : solarStep (some sp) (totalAnnual home (c.getD home) lat eff) =
            some (some { sp with
              offset_pct := pyRound 1
                (sp.annual_production_kwh / totalAnnual home (c.getD home) lat eff * 100) }) := by
          simp [solarStep, hp, pyDivide, hT]
        rw [hstep] at h
        injection h with h
        subst h
        exact ⟨_, rfl, rfl, rfl, rfl, rfl, rfl⟩
    · have hstep : solarStep (some sp) (totalAnnual home (c.getD home) lat eff) =
          some (some sp) := by
        simp [solarStep, hp]
      rw [hstep] at h
      injection h with h
      subst h
      exact ⟨_, rfl, rfl, rfl, rfl, rfl, rfl⟩
  · intro home c lat eff r h
    have hc : EnergyService.estimate home c lat eff none =
        EnergyService.estimate home (some (c.getD home)) lat eff none := by
      cases c <;> rfl
    rw [hc, estimate_none_eq] at h
    injection h with h
    subst h
    rfl

/-- Witness for C10: a supplied zero-production solar object comes back
untouched, and a no-solar call yields an empty solar block. -/
theorem solar_object_frame_witness :
    (∃ sp2, (resultWith 1800 1800 28.5 .STANDARD (some {})).solar_potential = some sp2 ∧
      sp2.max_panels = SolarPotential.max_panels {} ∧
      sp2.annual_production_kwh = SolarPotential.annual_production_kwh {} ∧
      sp2.estimated_savings_annual = SolarPotential.estimated_savings_annual {} ∧
      sp2.sunshine_hours_per_year = SolarPotential.sunshine_hours_per_year {} ∧
      sp2.roof_area_sqft = SolarPotential.roof_area_sqft {}) ∧
    (resultWith 1800 1800 28.5 .STANDARD none).solar_potential = none := by
  constructor
  · apply solar_object_frame.1 1800 (some 1800) 28.5 .STANDARD {}
    rw [estimate_eq]
    rfl
  · apply solar_object_frame.2 1800 (some 1800) 28.5 .STANDARD
    exact estimate_none_eq 1800 1800 28.5 .STANDARD
